import Mathlib

/-!
Shallow embedding of the ChittyAssets evidence-lifecycle and trust-verification
engine, translated from the TypeScript sources:

  - `ChittyCloudMCP` (mint, trust scoring, fallback scoring),
  - `ChittyEvidenceLedger` (submitEvidence, verifyEvidence, calculateComplianceLevel),
  - `AIAnalysisService.calculateTrustScore`,
  - `DatabaseStorage.updateAsset` over the `assets` Drizzle schema,
  - the `registerRoutes` calculate-trust-score endpoint.

JavaScript numbers are modelled as `ℚ`, epoch-millisecond timestamps as `ℕ`,
nullable columns as `Option`, string-literal unions as `String` or small
inductives, and each external HTTP call as an explicit response parameter
(the code branches only on `response.ok` / thrown errors / parsed fields).
JS truthiness tests on metadata fields are modelled as `Bool` presence flags.
-/

namespace ChittyAssets

/-- Compliance levels produced by the spec's classification table, including
the `none` level the spec describes.  The code's own classifier has the
narrower return type `'full' | 'partial' | 'minimal'`; both are modelled as
`String` values to stay faithful to the TypeScript string-literal unions. -/
def complianceLevels : List String := ["full", "partial", "minimal", "none"]

namespace ChittyEvidenceLedger

/-- Embedding of `ChittyEvidenceLedger.calculateComplianceLevel`
(src/unnamed/part_010 lines 572-583).  The three arguments are the fields the
code reads from the destructured `Promise.all` results:
`blockchain.verified`, `trust.trustScore`, `chain.confirmed`.

```ts
if (blockchain.verified && trust.trustScore >= 4 && chain.confirmed) return 'full';
else if (blockchain.verified && trust.trustScore >= 2) return 'partial';
else return 'minimal';
``` -/
def calculateComplianceLevel (verified : Bool) (trustScore : ℚ) (confirmed : Bool) :
    String :=
  if verified ∧ 4 ≤ trustScore ∧ confirmed then "full"
  else if verified ∧ 2 ≤ trustScore then "partial"
  else "minimal"

end ChittyEvidenceLedger

/-- Modelled from the spec's words (section 4.3 classification table), for
comparison with the code's classifier: `full` iff chain verified AND
trustScore ≥ 80 AND identity verified; `partial` iff chain verified AND
trustScore ≥ 40; `minimal` iff any one check succeeded but neither of the
above applies (the trust check succeeds at the policy threshold 40);
`none` iff all three checks failed. -/
def specClassify (chainVerified : Bool) (trustScore : ℚ) (identityVerified : Bool) :
    String :=
  if chainVerified ∧ 80 ≤ trustScore ∧ identityVerified then "full"
  else if chainVerified ∧ 40 ≤ trustScore then "partial"
  else if chainVerified ∨ 40 ≤ trustScore ∨ identityVerified then "minimal"
  else "none"

/-- C1 counterexample: with all three checks failed and trust score 10 the
spec's table gives `none`, but the code's classifier returns `minimal` (its
return type cannot even express `none`); and at (true, 50, true) the code
returns `full` (50 ≥ 4 on its 1-5 trust scale) where the spec's table gives
`partial` (50 < 80). -/
theorem calculateComplianceLevel_ne_specClassify :
    ChittyEvidenceLedger.calculateComplianceLevel false 10 false = "minimal" ∧
    specClassify false 10 false = "none" ∧
    ChittyEvidenceLedger.calculateComplianceLevel true 50 true = "full" ∧
    specClassify true 50 true = "partial" := by
  refine ⟨?_, ?_, ?_, ?_⟩ <;>
    simp [ChittyEvidenceLedger.calculateComplianceLevel, specClassify] <;> norm_num

/-- C1 amended: the code's classifier takes (`blockchain.verified`,
`trust.trustScore`, `chain.confirmed`) and returns `full` iff verified AND
trustScore ≥ 4 AND confirmed; `partial` iff verified AND trustScore ≥ 2 but
not `full`; `minimal` otherwise; it never returns `none`. -/
theorem calculateComplianceLevel_characterization (v : Bool) (s : ℚ) (c : Bool) :
    (ChittyEvidenceLedger.calculateComplianceLevel v s c = "full" ↔
        (v = true ∧ 4 ≤ s ∧ c = true)) ∧
    (ChittyEvidenceLedger.calculateComplianceLevel v s c = "partial" ↔
        (v = true ∧ 2 ≤ s ∧ ¬(4 ≤ s ∧ c = true))) ∧
    (ChittyEvidenceLedger.calculateComplianceLevel v s c = "minimal" ↔
        ¬(v = true ∧ 2 ≤ s)) ∧
    ChittyEvidenceLedger.calculateComplianceLevel v s c ≠ "none" := by
  cases v <;> cases c <;>
    by_cases h4 : (4 : ℚ) ≤ s <;> by_cases h2 : (2 : ℚ) ≤ s <;>
      simp [ChittyEvidenceLedger.calculateComplianceLevel, h4, h2]
  all_goals linarith

/-- The fields of the `assetData` object that
`ChittyCloudMCP.calculateFallbackTrustScore` reads.  The code tests
`purchasePrice`, `currentValue`, `serialNumber` and `model` only for JS
truthiness, so those are modelled as presence flags; `evidenceCount` is
compared with `> 0`; `verificationStatus` is compared with `=== 'verified'`. -/
structure AssetData where
  purchasePrice : Bool
  currentValue : Bool
  serialNumber : Bool
  model : Bool
  evidenceCount : Nat
  verificationStatus : String
deriving DecidableEq

/-- Return shape of both trust-score paths of `ChittyCloudMCP.calculateTrustScore`:
`{ trustScore, confidence, factors }`. -/
structure TrustScoreResult where
  trustScore : ℚ
  confidence : ℚ
  factors : List String
deriving DecidableEq

/-- Outcome of the `POST /v1/trust/score` call inside
`ChittyCloudMCP.calculateTrustScore`: a parsed OK response carrying
`data.score`, `data.confidence` and the possibly-absent `data.factors`,
a non-OK HTTP response, or a thrown network error. -/
inductive TrustServiceResponse
  | ok (score : ℚ) (confidence : ℚ) (factors : Option (List String))
  | httpError
  | networkError
deriving DecidableEq

namespace ChittyCloudMCP

/-- Embedding of `ChittyCloudMCP.calculateFallbackTrustScore`
(src/unnamed/part_010 lines 241-278): base score 50; +15 when both
`purchasePrice` and `currentValue` are truthy; +10 when `serialNumber` or
`model` is truthy; +10 when `evidenceCount > 0`; +15 when
`verificationStatus === 'verified'`; returned as
`{ trustScore: Math.min(100, score), confidence: 0.8, factors }`. -/
def calculateFallbackTrustScore (assetData : AssetData) : TrustScoreResult :=
  let score : ℚ := 50
    + (if assetData.purchasePrice && assetData.currentValue then 15 else 0)
    + (if assetData.serialNumber || assetData.model then 10 else 0)
    + (if 0 < assetData.evidenceCount then 10 else 0)
    + (if assetData.verificationStatus = "verified" then 15 else 0)
  let factors : List String :=
    (if assetData.purchasePrice && assetData.currentValue
     then ["Purchase and current value documented"] else [])
    ++ (if assetData.serialNumber || assetData.model
        then ["Unique identifier present"] else [])
    ++ (if 0 < assetData.evidenceCount
        then ["Supporting evidence available"] else [])
    ++ (if assetData.verificationStatus = "verified"
        then ["Third-party verification completed"] else [])
  { trustScore := min 100 score, confidence := 8/10, factors := factors }

/-- Embedding of `ChittyCloudMCP.calculateTrustScore`
(src/unnamed/part_010 lines 117-151): when the remote ChittyTrust call parses
OK it returns `{ trustScore: data.score, confidence: data.confidence,
factors: data.factors || [] }`; on a non-OK response or a thrown error it
falls back to `calculateFallbackTrustScore(assetData)`. -/
def calculateTrustScore (assetData : AssetData) (resp : TrustServiceResponse) :
    TrustScoreResult :=
  match resp with
  | .ok score confidence factors =>
      { trustScore := score, confidence := confidence, factors := factors.getD [] }
  | .httpError => calculateFallbackTrustScore assetData
  | .networkError => calculateFallbackTrustScore assetData

end ChittyCloudMCP

/-- Modelled from the spec's words (section 4.2), for comparison with the
code's fallback scorer: start at 50; +15 if both a purchase value and a
current value are present; +10 if a unique identifier (serial/model) is
present; +10 if at least one linked supporting evidence item exists; +15 if
the prior verification pass was `verified`; clamp the sum to [0,100]. -/
def specBaselineScore (d : AssetData) : ℚ :=
  let s : ℚ := 50 + (if d.purchasePrice ∧ d.currentValue then 15 else 0)
      + (if d.serialNumber ∨ d.model then 10 else 0)
      + (if 1 ≤ d.evidenceCount then 10 else 0)
      + (if d.verificationStatus = "verified" then 15 else 0)
  max 0 (min 100 s)

/-- C4: the code's fallback scorer agrees with the spec's reference
computation on every input, and its confidence is the constant 0.8. -/
theorem calculateFallbackTrustScore_eq_spec (d : AssetData) :
    (ChittyCloudMCP.calculateFallbackTrustScore d).trustScore = specBaselineScore d ∧
    (ChittyCloudMCP.calculateFallbackTrustScore d).confidence = 8/10 := by
  obtain ⟨p, cv, sn, mo, ec, vs⟩ := d
  refine ⟨?_, rfl⟩
  simp only [ChittyCloudMCP.calculateFallbackTrustScore, specBaselineScore]
  cases p <;> cases cv <;> cases sn <;> cases mo <;>
    by_cases hec : ec = 0 <;> by_cases hvs : vs = "verified" <;>
      simp [Nat.pos_iff_ne_zero, Nat.one_le_iff_ne_zero, hec, hvs, min_def, max_def] <;>
      norm_num

/-- C3 counterexample: for an asset whose baseline score is 50 with
confidence 0.8, a successful external response with score 10 and confidence
0.5 (≤ 0.8) still replaces the baseline: the computed trust score is 10, not
the baseline 50.  The code performs no confidence comparison. -/
theorem calculateTrustScore_low_confidence_overrides :
    (1 : ℚ)/2 ≤ 8/10 ∧
    ChittyCloudMCP.calculateTrustScore
        ⟨false, false, false, false, 0, "pending"⟩
        (TrustServiceResponse.ok 10 (1/2) none) =
      { trustScore := 10, confidence := 1/2, factors := [] } ∧
    ChittyCloudMCP.calculateFallbackTrustScore
        ⟨false, false, false, false, 0, "pending"⟩ =
      { trustScore := 50, confidence := 8/10, factors := [] } := by
  refine ⟨by norm_num, rfl, ?_⟩
  simp [ChittyCloudMCP.calculateFallbackTrustScore, min_def]
  norm_num

/-- C3 amended: whenever the external scorer returns successfully, its
`(score, confidence)` pair replaces the baseline unconditionally — no
comparison against the baseline's 0.8 confidence is made; the baseline is
used exactly when the external call fails (non-OK response or thrown
error). -/
theorem calculateTrustScore_override_unconditional (d : AssetData) (s c : ℚ)
    (f : Option (List String)) :
    ChittyCloudMCP.calculateTrustScore d (TrustServiceResponse.ok s c f) =
      { trustScore := s, confidence := c, factors := f.getD [] } ∧
    ChittyCloudMCP.calculateTrustScore d TrustServiceResponse.httpError =
      ChittyCloudMCP.calculateFallbackTrustScore d ∧
    ChittyCloudMCP.calculateTrustScore d TrustServiceResponse.networkError =
      ChittyCloudMCP.calculateFallbackTrustScore d :=
  ⟨rfl, rfl, rfl⟩

/-- Outcome of the OpenAI call inside `AIAnalysisService.calculateTrustScore`
(src/server/aiAnalysis.ts lines 199-224): either the call and JSON parse
succeeded and produced a numeric `trustScore` field, or the call (or parse)
threw. -/
inductive AIResponse
  | ok (trustScore : ℚ)
  | thrown
deriving DecidableEq

namespace AIAnalysisService

/-- Embedding of `AIAnalysisService.calculateTrustScore`
(src/server/aiAnalysis.ts lines 199-224): on success it returns
`Math.max(0, Math.min(100, result.trustScore))`; in the catch branch it logs
and returns `0`.  The `asset` and `evidence` arguments of the source only
shape the model prompt, so the returned value depends solely on the
response. -/
def calculateTrustScore (resp : AIResponse) : ℚ :=
  match resp with
  | .ok raw => max 0 (min 100 raw)
  | .thrown => 0

end AIAnalysisService

/-- C8: every trust score computed by the cited paths lies in [0,100]: the
AI path clamps its raw result with `Math.max(0, Math.min(100, ·))` (and
returns 0 on error), and the fallback path is `Math.min(100, ·)` of a sum
that starts at 50 and only adds non-negative bonuses. -/
theorem trustScore_in_range (resp : AIResponse) (d : AssetData) :
    (0 ≤ AIAnalysisService.calculateTrustScore resp ∧
      AIAnalysisService.calculateTrustScore resp ≤ 100) ∧
    (0 ≤ (ChittyCloudMCP.calculateFallbackTrustScore d).trustScore ∧
      (ChittyCloudMCP.calculateFallbackTrustScore d).trustScore ≤ 100) := by
  constructor
  · cases resp with
    | ok raw =>
        exact ⟨le_max_left 0 _, max_le (by norm_num) (min_le_left _ _)⟩
    | thrown => exact ⟨le_refl 0, by norm_num [AIAnalysisService.calculateTrustScore]⟩
  · constructor
    · simp only [ChittyCloudMCP.calculateFallbackTrustScore]
      rw [le_min_iff]
      refine ⟨by norm_num, ?_⟩
      split_ifs <;> norm_num
    · exact min_le_left _ _

/-- Outcome of the `POST /v1/chain/mint` call inside
`ChittyCloudMCP.mintAssetToken`: a parsed OK response carrying `data.tokenId`
and `data.transactionHash`, a non-OK HTTP response, or a thrown network
error. -/
inductive ChainResponse
  | ok (tokenId : String) (transactionHash : String)
  | httpError
  | networkError
deriving DecidableEq

/-- Return shape of `ChittyCloudMCP.mintAssetToken`:
`{ success, tokenId?, transactionHash?, error? }`. -/
structure MintResult where
  success : Bool
  tokenId : Option String
  transactionHash : Option String
  error : Option String
deriving DecidableEq

namespace ChittyCloudMCP

/-- Embedding of `ChittyCloudMCP.mintAssetToken`
(src/unnamed/part_010 lines 80-114).  The method posts
`{ chittyId, evidenceHash, mintingFee: '0.1' }` to the chain service and
returns `{ success: true, tokenId, transactionHash }` on an OK response,
`{ success: false, error: 'Token minting failed' }` on a non-OK response and
`{ success: false, error: 'Network error during minting' }` on a thrown
error.  It consults no local record state, no clock and no lock: the result
is a function of the collaborator's response alone. -/
def mintAssetToken (chittyId : String) (evidenceHash : String)
    (resp : ChainResponse) : MintResult :=
  match chittyId, evidenceHash, resp with
  | _, _, .ok tokenId transactionHash =>
      { success := true, tokenId := some tokenId,
        transactionHash := some transactionHash, error := none }
  | _, _, .httpError =>
      { success := false, tokenId := none, transactionHash := none,
        error := some "Token minting failed" }
  | _, _, .networkError =>
      { success := false, tokenId := none, transactionHash := none,
        error := some "Network error during minting" }

end ChittyCloudMCP

/-- The `chitty_chain_status` enum of the `assets` Drizzle schema
(src/unnamed/part_016 lines 54-56). -/
inductive ChittyChainStatus
  | draft
  | frozen
  | minted
  | settled
  | disputed
deriving DecidableEq

/-- Row model of the `assets` table (src/unnamed/part_016 lines 59-92),
restricted to the columns the verified claims read or write.  Timestamps are
epoch milliseconds; nullable columns are `Option`; `trust_score` is a
decimal column with default `"0.0"`, modelled numerically. -/
structure Asset where
  id : String
  chittyId : Option String
  userId : String
  name : String
  status : String
  trustScore : Option ℚ
  blockchainHash : Option String
  ipfsHash : Option String
  freezeTimestamp : Option Nat
  settlementTimestamp : Option Nat
  verificationStatus : String
  chittyChainStatus : ChittyChainStatus
  createdAt : Nat
  updatedAt : Nat
deriving DecidableEq

/-- A `Partial<InsertAsset>` value as accepted by `DatabaseStorage.updateAsset`:
each field is `some v` when the update object carries that property (the PUT
`/api/assets/:id` route forwards an arbitrary request body, stripping only
`id`, `userId`, `createdAt` and `updatedAt`), and `none` when absent.  For a
nullable column the carried value is itself an `Option`. -/
structure AssetUpdates where
  chittyId : Option (Option String) := none
  name : Option String := none
  status : Option String := none
  trustScore : Option (Option ℚ) := none
  blockchainHash : Option (Option String) := none
  ipfsHash : Option (Option String) := none
  freezeTimestamp : Option (Option Nat) := none
  settlementTimestamp : Option (Option Nat) := none
  verificationStatus : Option String := none
  chittyChainStatus : Option ChittyChainStatus := none
deriving DecidableEq

namespace DatabaseStorage

/-- Embedding of `DatabaseStorage.updateAsset` (src/unnamed/part_012 lines
172-179): `db.update(assets).set({ ...updates, updatedAt: new Date() })` —
every property present in `updates` overwrites the stored column, `updatedAt`
is set to the current time, and no other column changes.  No cross-field
guard of any kind is applied. -/
def updateAsset (a : Asset) (u : AssetUpdates) (now : Nat) : Asset :=
  { a with
    chittyId := u.chittyId.getD a.chittyId
    name := u.name.getD a.name
    status := u.status.getD a.status
    trustScore := u.trustScore.getD a.trustScore
    blockchainHash := u.blockchainHash.getD a.blockchainHash
    ipfsHash := u.ipfsHash.getD a.ipfsHash
    freezeTimestamp := u.freezeTimestamp.getD a.freezeTimestamp
    settlementTimestamp := u.settlementTimestamp.getD a.settlementTimestamp
    verificationStatus := u.verificationStatus.getD a.verificationStatus
    chittyChainStatus := u.chittyChainStatus.getD a.chittyChainStatus
    updatedAt := now }

end DatabaseStorage

/-- A freshly inserted `assets` row with the schema's column defaults
(src/unnamed/part_016): `status 'active'`, `trust_score "0.0"`,
`verification_status 'pending'`, `chitty_chain_status 'draft'`, and null
blockchain/freeze/settlement columns. -/
def defaultAssetRow (id userId name : String) (now : Nat) : Asset :=
  { id := id, chittyId := none, userId := userId, name := name
    status := "active", trustScore := some 0, blockchainHash := none
    ipfsHash := none, freezeTimestamp := none, settlementTimestamp := none
    verificationStatus := "pending", chittyChainStatus := ChittyChainStatus.draft
    createdAt := now, updatedAt := now }

/-- The spec's two field/state biconditionals for a record: `freezeAt` is set
iff the state is frozen, minted or settled, and the chain reference is set
iff the state is minted or settled. -/
def stateFieldInvariant (a : Asset) : Prop :=
  (a.freezeTimestamp ≠ none ↔
    (a.chittyChainStatus = ChittyChainStatus.frozen ∨
     a.chittyChainStatus = ChittyChainStatus.minted ∨
     a.chittyChainStatus = ChittyChainStatus.settled)) ∧
  (a.blockchainHash ≠ none ↔
    (a.chittyChainStatus = ChittyChainStatus.minted ∨
     a.chittyChainStatus = ChittyChainStatus.settled))

instance (a : Asset) : Decidable (stateFieldInvariant a) := by
  unfold stateFieldInvariant; infer_instance

/-- The 7-day freeze window in milliseconds: the `freezeDuration: '7d'` sent
by `ChittyCloudMCP.freezeAsset` and the `7 * 24 * 60 * 60 * 1000` countdown
the client computes from `freezeTimestamp` (src/unnamed/part_003). -/
def freezeWindowMs : Nat := 7 * 24 * 60 * 60 * 1000

/-- A concrete frozen record used to exercise the mint path: frozen at epoch
millisecond 1000 with a known chittyId. -/
def frozenSampleAsset : Asset :=
  { defaultAssetRow "asset-1" "user-1" "Sample watch" 1000 with
    chittyChainStatus := ChittyChainStatus.frozen
    freezeTimestamp := some 1000 }

/-- C2 counterexample: a record frozen at t=1000 whose 7-day window is far
from elapsed at t=1500; `mintAssetToken` nevertheless succeeds when the chain
collaborator answers OK, and returns no error — in particular no
`PrematureMintError`, which does not exist anywhere in the code. -/
theorem mintAssetToken_ignores_freeze_window :
    frozenSampleAsset.chittyChainStatus = ChittyChainStatus.frozen ∧
    frozenSampleAsset.freezeTimestamp = some 1000 ∧
    1500 < 1000 + freezeWindowMs ∧
    (ChittyCloudMCP.mintAssetToken "asset-1" "hash-1"
        (ChainResponse.ok "token-9" "0xabc")).success = true ∧
    (ChittyCloudMCP.mintAssetToken "asset-1" "hash-1"
        (ChainResponse.ok "token-9" "0xabc")).error = none := by
  refine ⟨rfl, rfl, by norm_num [freezeWindowMs], rfl, rfl⟩

/-- C2 amended: `mintAssetToken` enforces no freeze-window guard at all — its
outcome is a function of the chain collaborator's response only (success iff
the response is OK), irrespective of the record's state, `freezeAt`, or the
current time, and its error field is never a premature-mint error. -/
theorem mintAssetToken_no_freeze_guard (chittyId evidenceHash : String)
    (resp : ChainResponse) :
    ((ChittyCloudMCP.mintAssetToken chittyId evidenceHash resp).success = true ↔
      ∃ t h, resp = ChainResponse.ok t h) ∧
    (ChittyCloudMCP.mintAssetToken chittyId evidenceHash resp).error ≠
      some "PrematureMintError" := by
  cases resp <;> simp [ChittyCloudMCP.mintAssetToken]

/-- C5 counterexample: two mint calls on the same record id, each answered OK
by the chain collaborator with different transaction hashes, both return
`success: true` and carry the two distinct chain references — two distinct
anchors, no `InvalidTransitionError` (which does not exist in the code), and
no shared `chainReference`. -/
theorem mintAssetToken_two_calls_two_anchors :
    (ChittyCloudMCP.mintAssetToken "asset-1" "hash-1"
        (ChainResponse.ok "token-9" "0xaaa")).success = true ∧
    (ChittyCloudMCP.mintAssetToken "asset-1" "hash-1"
        (ChainResponse.ok "token-10" "0xbbb")).success = true ∧
    (ChittyCloudMCP.mintAssetToken "asset-1" "hash-1"
        (ChainResponse.ok "token-9" "0xaaa")).transactionHash ≠
      (ChittyCloudMCP.mintAssetToken "asset-1" "hash-1"
        (ChainResponse.ok "token-10" "0xbbb")).transactionHash := by
  refine ⟨rfl, rfl, by simp [ChittyCloudMCP.mintAssetToken]⟩

/-- C5 amended: the code performs no per-record mutual exclusion, reservation
or idempotency for minting — each call independently forwards to the chain
collaborator and succeeds whenever its own response is OK, carrying exactly
that response's transaction hash; so two concurrent calls on the same id can
both mint, with distinct anchors whenever the collaborator returns distinct
hashes. -/
theorem mintAssetToken_no_at_most_once (chittyId evidenceHash : String)
    (t1 h1 t2 h2 : String) :
    (ChittyCloudMCP.mintAssetToken chittyId evidenceHash
        (ChainResponse.ok t1 h1)).success = true ∧
    (ChittyCloudMCP.mintAssetToken chittyId evidenceHash
        (ChainResponse.ok t2 h2)).success = true ∧
    (ChittyCloudMCP.mintAssetToken chittyId evidenceHash
        (ChainResponse.ok t1 h1)).transactionHash = some h1 ∧
    (ChittyCloudMCP.mintAssetToken chittyId evidenceHash
        (ChainResponse.ok t2 h2)).transactionHash = some h2 :=
  ⟨rfl, rfl, rfl, rfl⟩

/-- C6 counterexample: the freshly inserted row satisfies both biconditionals,
but a single `updateAsset` call that sets only `chittyChainStatus: 'frozen'`
(exactly what the unvalidated PUT `/api/assets/:id` body can carry) yields a
frozen record whose `freezeTimestamp` is still null — the invariant is not
preserved. -/
theorem updateAsset_breaks_state_field_invariant :
    stateFieldInvariant (defaultAssetRow "asset-1" "user-1" "Sample watch" 1000) ∧
    ¬ stateFieldInvariant
        (DatabaseStorage.updateAsset
          (defaultAssetRow "asset-1" "user-1" "Sample watch" 1000)
          { chittyChainStatus := some ChittyChainStatus.frozen } 2000) := by
  constructor
  · exact ⟨by simp [defaultAssetRow], by simp [defaultAssetRow]⟩
  · intro h
    have h1 := h.1
    simp [DatabaseStorage.updateAsset, defaultAssetRow] at h1

/-- C6 amended: a record with the schema's column defaults satisfies both
biconditionals, but `updateAsset` does not preserve them: it overwrites
exactly the supplied fields plus `updatedAt` with no cross-field guard, so
updating a compliant record that has `freezeTimestamp` null to state
`frozen` always produces a record violating the invariant. -/
theorem updateAsset_no_invariant_preservation (id userId name : String)
    (t : Nat) (a : Asset) (m : Nat)
    (hInv : stateFieldInvariant a) (hFt : a.freezeTimestamp = none) :
    stateFieldInvariant (defaultAssetRow id userId name t) ∧
    (DatabaseStorage.updateAsset a
        { chittyChainStatus := some ChittyChainStatus.frozen } m).chittyChainStatus =
      ChittyChainStatus.frozen ∧
    (DatabaseStorage.updateAsset a
        { chittyChainStatus := some ChittyChainStatus.frozen } m).freezeTimestamp =
      none ∧
    ¬ stateFieldInvariant
        (DatabaseStorage.updateAsset a
          { chittyChainStatus := some ChittyChainStatus.frozen } m) := by
  refine ⟨⟨by simp [defaultAssetRow], by simp [defaultAssetRow]⟩, rfl, ?_, ?_⟩
  · simp [DatabaseStorage.updateAsset, hFt]
  · intro h
    have h1 := h.1
    simp [DatabaseStorage.updateAsset, hFt] at h1

/-- C6 witness: the amended theorem applied to the concrete frozen-free
default row, discharging both hypotheses by evaluation. -/
theorem updateAsset_no_invariant_preservation_witness :
    stateFieldInvariant (defaultAssetRow "asset-1" "user-1" "Sample watch" 1000) ∧
    (DatabaseStorage.updateAsset (defaultAssetRow "asset-1" "user-1" "Sample watch" 1000)
        { chittyChainStatus := some ChittyChainStatus.frozen } 2000).chittyChainStatus =
      ChittyChainStatus.frozen ∧
    (DatabaseStorage.updateAsset (defaultAssetRow "asset-1" "user-1" "Sample watch" 1000)
        { chittyChainStatus := some ChittyChainStatus.frozen } 2000).freezeTimestamp =
      none ∧
    ¬ stateFieldInvariant
        (DatabaseStorage.updateAsset (defaultAssetRow "asset-1" "user-1" "Sample watch" 1000)
          { chittyChainStatus := some ChittyChainStatus.frozen } 2000) :=
  updateAsset_no_invariant_preservation "asset-1" "user-1" "Sample watch" 1000
    (defaultAssetRow "asset-1" "user-1" "Sample watch" 1000) 2000
    (by constructor <;> simp [defaultAssetRow]) rfl

/-- Result of `services.verify.verify(chittyId, { method: 'blockchain' })`
as read by `verifyEvidence`: only the `verified` field is consulted. -/
structure BlockchainVerification where
  verified : Bool
deriving DecidableEq

/-- Result of `services.trust.calculate(chittyId)` as read by
`verifyEvidence`: only the `trustScore` field is consulted. -/
structure TrustVerification where
  trustScore : ℚ
deriving DecidableEq

/-- Result of `services.chain.getTransaction(chittyId)` as read by
`calculateComplianceLevel`: only the `confirmed` field is consulted. -/
structure ChainTransaction where
  confirmed : Bool
deriving DecidableEq

/-- Return shape of `ChittyEvidenceLedger.verifyEvidence`, restricted to the
fields the claims are about. -/
structure VerifyEvidenceResult where
  isAuthentic : Bool
  complianceLevel : String
deriving DecidableEq

namespace ChittyEvidenceLedger

/-- Embedding of `ChittyEvidenceLedger.verifyEvidence`
(src/unnamed/part_010 lines 520-539).  The three collaborator calls run under
`Promise.all` with no `try`/`catch`; each goes through
`ChittyCloudflareCore.callService`, which throws on a non-OK response or a
network failure.  A rejection of any call therefore rejects the whole
`Promise.all` and propagates out of `verifyEvidence`; modelled with
`Except`, where `error` carries the thrown message.  On success the method
returns `isAuthentic: blockchainVerif.verified && trustVerif.trustScore >=
this.config.trustLevel` and the compliance level of
`calculateComplianceLevel`. -/
def verifyEvidence (cfgTrustLevel : ℚ)
    (verifyResp : Except String BlockchainVerification)
    (trustResp : Except String TrustVerification)
    (chainResp : Except String ChainTransaction) :
    Except String VerifyEvidenceResult := do
  let blockchainVerif ← verifyResp
  let trustVerif ← trustResp
  let chainData ← chainResp
  pure
    { isAuthentic :=
        blockchainVerif.verified && decide (cfgTrustLevel ≤ trustVerif.trustScore)
      complianceLevel :=
        calculateComplianceLevel blockchainVerif.verified trustVerif.trustScore
          chainData.confirmed }

end ChittyEvidenceLedger

/-- C7 counterexample: with the chain-verification collaborator unreachable
(its call throws) and the other two checks answering normally,
`verifyEvidence` returns the propagated error and no compliance
classification — the transient external error is not converted into a
"failed" check. -/
theorem verifyEvidence_propagates_error_concrete :
    ChittyEvidenceLedger.verifyEvidence 3
        (Except.error "Service resolution returned 503: Service Unavailable")
        (Except.ok { trustScore := 5 })
        (Except.ok { confirmed := true }) =
      Except.error "Service resolution returned 503: Service Unavailable" := rfl

/-- C7 amended: `verifyEvidence` propagates a transient external error from
any one of its three checks to the caller (returning the error and no
classification); a compliance classification is produced exactly when all
three checks complete, in which case it is `calculateComplianceLevel` of
their results. -/
theorem verifyEvidence_error_propagation (cfgTrustLevel : ℚ) (e : String)
    (bv : BlockchainVerification) (tv : TrustVerification) (cd : ChainTransaction)
    (trustResp : Except String TrustVerification)
    (chainResp : Except String ChainTransaction) :
    ChittyEvidenceLedger.verifyEvidence cfgTrustLevel (Except.error e)
        trustResp chainResp = Except.error e ∧
    ChittyEvidenceLedger.verifyEvidence cfgTrustLevel (Except.ok bv)
        (Except.error e) chainResp = Except.error e ∧
    ChittyEvidenceLedger.verifyEvidence cfgTrustLevel (Except.ok bv)
        (Except.ok tv) (Except.error e) = Except.error e ∧
    ChittyEvidenceLedger.verifyEvidence cfgTrustLevel (Except.ok bv)
        (Except.ok tv) (Except.ok cd) =
      Except.ok
        { isAuthentic := bv.verified && decide (cfgTrustLevel ≤ tv.trustScore)
          complianceLevel :=
            ChittyEvidenceLedger.calculateComplianceLevel bv.verified
              tv.trustScore cd.confirmed } :=
  ⟨rfl, rfl, rfl, rfl⟩

/-- Milliseconds per day, as the literal `24 * 60 * 60 * 1000` used by
`submitEvidence`'s retention computation. -/
def msPerDay : Nat := 24 * 60 * 60 * 1000

namespace ChittyEvidenceLedger

/-- The `ChittyEvidenceLedger` configuration fields read by the embedded
operations, as populated by the constructor (src/unnamed/part_010 lines
411-425) from environment variables with defaults. -/
structure LedgerConfig where
  trustLevel : ℚ
  retentionDays : Nat
deriving DecidableEq

/-- The constructor defaults: `CHITTY_TRUST_LEVEL || '3'` and
`CHITTY_EVIDENCE_RETENTION_DAYS || '2555'`. -/
def defaultConfig : LedgerConfig :=
  { trustLevel := 3, retentionDays := 2555 }

/-- Return shape of `ChittyEvidenceLedger.submitEvidence`, with the
collaborator results (ledger registration, trust calculation, chain mint)
passed through opaquely. -/
structure SubmitEvidenceResult where
  chittyId : String
  ledgerHash : String
  trustScore : ℚ
  chainTx : String
  status : String
  retentionUntil : Nat
deriving DecidableEq

/-- Embedding of `ChittyEvidenceLedger.submitEvidence`
(src/unnamed/part_010 lines 430-491), restricted to the data flow the claims
are about: the ledger, trust and chain collaborator results are threaded
into the returned object, `status` is the literal `'submitted'`, and
`retentionUntil` is computed once, at submission, as
`Date.now() + this.config.retentionDays * 24 * 60 * 60 * 1000`.  No other
method of the class reads or writes `retentionUntil`. -/
def submitEvidence (cfg : LedgerConfig) (chittyId : String)
    (ledgerHash : String) (trustScore : ℚ) (chainTx : String) (now : Nat) :
    SubmitEvidenceResult :=
  { chittyId := chittyId, ledgerHash := ledgerHash, trustScore := trustScore
    chainTx := chainTx, status := "submitted"
    retentionUntil := now + cfg.retentionDays * msPerDay }

end ChittyEvidenceLedger

/-- C9: under the default retention policy (2555 days), a record submitted at
`t0` gets `retentionUntil = t0 + 2555 days` exactly (in milliseconds), for
every record content and collaborator outcome. -/
theorem submitEvidence_retentionUntil_exact (chittyId ledgerHash : String)
    (trustScore : ℚ) (chainTx : String) (t0 : Nat) :
    (ChittyEvidenceLedger.submitEvidence ChittyEvidenceLedger.defaultConfig
        chittyId ledgerHash trustScore chainTx t0).retentionUntil =
      t0 + 2555 * (24 * 60 * 60 * 1000) := rfl

namespace registerRoutes

/-- Embedding of the `POST /api/assets/:assetId/calculate-trust-score`
handler (src/unnamed/part_009 lines 390-409) for an existing asset: it
computes `aiAnalysisService.calculateTrustScore(asset, evidence)` and
persists it with `storage.updateAsset(assetId, userId, { trustScore:
trustScore.toString() })`, then responds with the score.  Returns the
updated row and the response payload. -/
def calculateTrustScoreRoute (asset : Asset) (aiResp : AIResponse) (now : Nat) :
    Asset × ℚ :=
  let trustScore := AIAnalysisService.calculateTrustScore aiResp
  (DatabaseStorage.updateAsset asset { trustScore := some (some trustScore) } now,
    trustScore)

end registerRoutes

/-- C10: when the AI scoring call throws, `AIAnalysisService.calculateTrustScore`
returns 0 instead of propagating the error, and the calculate-trust-score
endpoint then persists 0 as the asset's trust score (and reports 0 to the
client), for every asset and update time. -/
theorem aiTrustScore_error_persists_zero (asset : Asset) (now : Nat) :
    AIAnalysisService.calculateTrustScore AIResponse.thrown = 0 ∧
    (registerRoutes.calculateTrustScoreRoute asset AIResponse.thrown now).1.trustScore =
      some 0 ∧
    (registerRoutes.calculateTrustScoreRoute asset AIResponse.thrown now).2 = 0 :=
  ⟨rfl, rfl, rfl⟩

end ChittyAssets
